import Mathlib

/-!
Verification of the SwitchBot BLE library against its specification.

The development shallowly embeds two source files:

* `src/device/wohumi.ts` — the humidifier codec (`WoHumi.parseServiceData`)
  and the command/response handler (`WoHumi._operateBot`);
* `parameter-checker.ts` — the generic rule-based `ParameterChecker`.

Buffers are modelled as `List Nat` of byte values; `Buffer.readUInt8`,
which throws a `RangeError` on an out-of-bounds offset, is modelled as an
`Except`-valued read.  Promise settlement in `_operateBot` is modelled as
the list of `resolve`/`reject` calls the handler executes for a given
result of the `_command` collaborator.  JavaScript numbers are modelled as
rationals extended with `NaN` (the claims only involve exact small values
and `NaN`, which this model represents exactly); the checker's mutable
static `error` field is modelled by explicit state passing.  Error
`message` strings (presentation-only prose) are not modelled; the `code`
and `name` fields, which the specification's error taxonomy names, are.
-/

/-- Model of `Buffer.readUInt8(offset)`: returns the byte at `offset`, or throws a
`RangeError` when `offset` is out of bounds (modelled as `Except.error`). -/
def readUInt8 (buf : List Nat) (offset : Nat) : Except String Nat :=
  if offset < buf.length then Except.ok (buf.getD offset 0)
  else Except.error "RangeError: The value of offset is out of range"

/-- Lowercase hexadecimal digit for `n < 16`. -/
def hexDigit (n : Nat) : Char :=
  if n < 10 then Char.ofNat (48 + n) else Char.ofNat (87 + n)

/-- Two lowercase hexadecimal digits for one byte, as Node's
`buf.toString(hex)` renders each byte. -/
def byteToHex (b : Nat) : String :=
  String.mk [hexDigit (b / 16 % 16), hexDigit (b % 16)]

/-- Node's `buf.toString(hex)`: the bytes of the buffer, two lowercase
hexadecimal digits each, concatenated. -/
def bufToHex (buf : List Nat) : String :=
  String.join (buf.map byteToHex)

/-- The record literal built by `WoHumi.parseServiceData`. -/
structure HumiServiceData where
  model : String
  modelName : String
  onState : Bool
  autoMode : Bool
  percentage : Nat
deriving DecidableEq, Repr

/-- Model of `WoHumi.parseServiceData(buf, onlog)`; the `onlog` callback only emits a
log line on the length-mismatch path and is not modelled.  A thrown
`RangeError` from a buffer read would surface as `Except.error`; the JS
value `null` is `none`. -/
def parseServiceData (buf : List Nat) : Except String (Option HumiServiceData) :=
  if buf.length != 8 then Except.ok none
  else do
    let byte1 ← readUInt8 buf 1
    let byte4 ← readUInt8 buf 4
    let onState := byte1 &&& 0b10000000 != 0
    let autoMode := byte4 &&& 0b10000000 != 0
    let percentage := byte4 &&& 0b01111111
    Except.ok (some
      { model := "e"
        modelName := "WoHumi"
        onState := onState
        autoMode := autoMode
        percentage := if autoMode then 0 else percentage })

/-- One `resolve`/`reject` call performed by the executor of the promise
returned by `WoHumi._operateBot`.  `ε` is the type of errors produced by
the `_command` collaborator. -/
inductive Settle (ε : Type) where
  /-- The call `resolve()` — no payload. -/
  | resolved : Settle ε
  /-- The call `reject(error)` where `error` is the transport error produced by
  `_command`, propagated unchanged by the `.catch` handler. -/
  | rejectedTransport (e : ε) : Settle ε
  /-- The call `reject(error)` where `error` is the `RangeError` thrown by
  `res_buf.readUInt8(0)` inside the `.then` callback and routed to the
  `.catch` handler. -/
  | rejectedRange : Settle ε
  /-- The call `reject(new Error(msg))` on an unrecognized opcode or wrong length. -/
  | rejectedProtocol (msg : String) : Settle ε
deriving DecidableEq, Repr

/-- The sequence of `resolve`/`reject` calls `WoHumi._operateBot` executes,
given the result of the `this._command(req_buf)` collaborator call
(`Except.error e` = the command promise rejected with `e`;
`Except.ok res` = it resolved with response buffer `res`). -/
def settleTrace (ε : Type) (cmdResult : Except ε (List Nat)) : List (Settle ε) :=
  match cmdResult with
  | Except.error e => [Settle.rejectedTransport e]
  | Except.ok res =>
    match readUInt8 res 0 with
    | Except.error _ => [Settle.rejectedRange]
    | Except.ok code =>
      if res.length == 3 && (code == 0x01 || code == 0x05) then
        [Settle.resolved]
      else
        [Settle.rejectedProtocol ("The device returned an error: 0x" ++ bufToHex res)]

/-- Whether a settle action is a protocol failure carrying the
hex encoding of response buffer `res`. -/
def Settle.carriesHexOf {ε : Type} (res : List Nat) : Settle ε → Bool
  | Settle.rejectedProtocol msg =>
      msg == "The device returned an error: 0x" ++ bufToHex res
  | _ => false

theorem and128_bne_zero (n : Nat) : (n &&& 128 != 0) = n.testBit 7 := by
  rw [show (128 : Nat) = 2 ^ 7 from rfl, Nat.and_two_pow]
  cases h : n.testBit 7 <;> simp [h]

theorem and127_eq_mod (n : Nat) : n &&& 127 = n % 128 := by
  apply Nat.eq_of_testBit_eq
  intro i
  rw [Nat.testBit_and, show (128 : Nat) = 2 ^ 7 from rfl, Nat.testBit_mod_two_pow]
  rcases Nat.lt_or_ge i 7 with h | h
  · have h127 : (127 : Nat).testBit i = true := by interval_cases i <;> decide
    simp [h127, h]
  · have h127 : (127 : Nat).testBit i = false := by
      have hlt : (127 : Nat) < 2 ^ i :=
        lt_of_lt_of_le (by norm_num) (Nat.pow_le_pow_right (by norm_num) h)
      exact Nat.testBit_lt_two_pow hlt
    simp [h127, Nat.not_lt.mpr h]

/-- Full characterization of `parseServiceData` on 8-byte buffers, shared
by the decoder claims. -/
theorem parseServiceData_spec (buf : List Nat) (hlen : buf.length = 8) :
    parseServiceData buf = Except.ok (some
      { model := "e"
        modelName := "WoHumi"
        onState := (buf.getD 1 0).testBit 7
        autoMode := (buf.getD 4 0).testBit 7
        percentage :=
          if (buf.getD 4 0).testBit 7 then 0 else buf.getD 4 0 % 128 }) := by
  have h1 : (1 : Nat) < buf.length := by omega
  have h4 : (4 : Nat) < buf.length := by omega
  simp only [parseServiceData, readUInt8, hlen, if_pos h1, if_pos h4]
  norm_num [and128_bne_zero, and127_eq_mod, Bind.bind, Except.bind]

/-- C1: for every response buffer of length 3 whose first byte is `0x01` or
`0x05`, `_operateBot` resolves as success; for every length-3 response
buffer with any other first byte it rejects with a failure carrying the hex
encoding of the full response. -/
theorem c1_operateBot_length3_opcode (ε : Type) (res : List Nat)
    (hlen : res.length = 3) (hbytes : ∀ b ∈ res, b ≤ 255) :
    ((res.getD 0 0 = 0x01 ∨ res.getD 0 0 = 0x05) →
      settleTrace ε (Except.ok res) = [Settle.resolved]) ∧
    (res.getD 0 0 ≠ 0x01 → res.getD 0 0 ≠ 0x05 →
      settleTrace ε (Except.ok res) =
        [Settle.rejectedProtocol
          ("The device returned an error: 0x" ++ bufToHex res)]) := by
  rcases res with _ | ⟨a, _ | ⟨b, _ | ⟨c, _ | ⟨d, t⟩⟩⟩⟩ <;> simp at hlen <;>
    try omega
  constructor
  · rintro (h | h) <;> simp_all [settleTrace, readUInt8]
  · intro h1 h5
    simp_all [settleTrace, readUInt8]

/-- Witness for C1: the response `[0x02, 0x00, 0x00]` rejects with the hex
string `020000`, and `[0x01, 0x00, 0x00]` resolves. -/
theorem c1_witness :
    settleTrace Unit (Except.ok [0x02, 0x00, 0x00]) =
      [Settle.rejectedProtocol "The device returned an error: 0x020000"] ∧
    settleTrace Unit (Except.ok [0x01, 0x00, 0x00]) = [Settle.resolved] := by
  constructor
  · have h := (c1_operateBot_length3_opcode Unit [0x02, 0x00, 0x00] rfl
      (by decide)).2 (by decide) (by decide)
    rw [h]; rfl
  · exact (c1_operateBot_length3_opcode Unit [0x01, 0x00, 0x00] rfl
      (by decide)).1 (Or.inl rfl)

/-- C2: on every 8-byte service-data buffer `parseServiceData` returns a
record whose `onState` is bit 7 of byte 1, `autoMode` is bit 7 of byte 4,
and `percentage` is the low 7 bits of byte 4 except that auto mode forces
it to 0. -/
theorem c2_parseServiceData_bits (buf : List Nat) (hlen : buf.length = 8)
    (hbytes : ∀ b ∈ buf, b ≤ 255) :
    parseServiceData buf = Except.ok (some
      { model := "e"
        modelName := "WoHumi"
        onState := (buf.getD 1 0).testBit 7
        autoMode := (buf.getD 4 0).testBit 7
        percentage :=
          if (buf.getD 4 0).testBit 7 then 0 else buf.getD 4 0 % 128 }) :=
  parseServiceData_spec buf hlen

/-- Witness for C2 at the two specification examples: byte 1 = `0x80`,
byte 4 = `0x32` gives on, manual, 50 percent; byte 4 = `0x96` gives auto
mode with percentage forced to 0. -/
theorem c2_witness :
    parseServiceData [0, 0x80, 0, 0, 0x32, 0, 0, 0] = Except.ok (some
      { model := "e", modelName := "WoHumi", onState := true,
        autoMode := false, percentage := 50 }) ∧
    parseServiceData [0, 0x80, 0, 0, 0x96, 0, 0, 0] = Except.ok (some
      { model := "e", modelName := "WoHumi", onState := true,
        autoMode := true, percentage := 0 }) := by
  constructor
  · have h := c2_parseServiceData_bits [0, 0x80, 0, 0, 0x32, 0, 0, 0] rfl
      (by decide)
    rw [h]; rfl
  · have h := c2_parseServiceData_bits [0, 0x80, 0, 0, 0x96, 0, 0, 0] rfl
      (by decide)
    rw [h]; rfl

/-- C3 counterexample: on the 8-byte buffer whose byte 4 is 101 (auto bit
clear), the decoder reports the quick-gear code 101 directly in the
`percentage` field of the record — the record has no distinct quick-gear
mode field — contradicting the claim that 101 is never reported as a
percentage. -/
theorem c3_quickgear_in_percentage :
    parseServiceData [0, 0, 0, 0, 101, 0, 0, 0] = Except.ok (some
      { model := "e", modelName := "WoHumi", onState := false,
        autoMode := false, percentage := 101 }) := by rfl

/-- C3 amended: for every 8-byte buffer with the auto-mode bit clear whose
byte-4 low 7 bits are 101, 102 or 103, the decoder reports that raw
quick-gear code in the `percentage` field; the decoded record has no
separate discrete-mode field. -/
theorem c3_amended_quickgear_as_percentage (buf : List Nat)
    (hlen : buf.length = 8) (hbytes : ∀ b ∈ buf, b ≤ 255)
    (hauto : (buf.getD 4 0).testBit 7 = false)
    (hq : buf.getD 4 0 % 128 = 101 ∨ buf.getD 4 0 % 128 = 102 ∨
          buf.getD 4 0 % 128 = 103) :
    parseServiceData buf = Except.ok (some
      { model := "e"
        modelName := "WoHumi"
        onState := (buf.getD 1 0).testBit 7
        autoMode := false
        percentage := buf.getD 4 0 % 128 }) := by
  have h := parseServiceData_spec buf hlen
  rw [h, hauto]
  simp

/-- Witness for C3's amended claim: byte 4 = 102 decodes with
`percentage = 102`. -/
theorem c3_witness :
    parseServiceData [0, 0, 0, 0, 102, 0, 0, 0] = Except.ok (some
      { model := "e", modelName := "WoHumi", onState := false,
        autoMode := false, percentage := 102 }) := by
  have h := c3_amended_quickgear_as_percentage [0, 0, 0, 0, 102, 0, 0, 0]
    rfl (by decide) (by decide) (Or.inr (Or.inl (by decide)))
  rw [h]; rfl

/-- C4: for every buffer whose length is not 8, `parseServiceData` returns
`null` (here `Except.ok none`): no byte is read — in particular no
out-of-bounds read is attempted (the result is not `Except.error`) — and
no partial record is produced. -/
theorem c4_length_mismatch_null (buf : List Nat) (hlen : buf.length ≠ 8) :
    parseServiceData buf = Except.ok none := by
  have h : (buf.length != 8) = true := by simpa using hlen
  simp [parseServiceData, h]

/-- Witness for C4 at the length-3 buffer `[1, 2, 3]` and the empty
buffer. -/
theorem c4_witness :
    parseServiceData [1, 2, 3] = Except.ok none ∧
    parseServiceData [] = Except.ok none :=
  ⟨c4_length_mismatch_null [1, 2, 3] (by decide),
   c4_length_mismatch_null [] (by decide)⟩

/-- C5: for every result of the `_command` collaborator, the promise
executor of `_operateBot` performs exactly one `resolve`/`reject` call,
and when `_command` rejects with a transport error `e`, that single call
is `reject(e)` with the error unchanged. -/
theorem c5_single_settle (ε : Type) (cmdResult : Except ε (List Nat)) :
    (settleTrace ε cmdResult).length = 1 ∧
    (∀ e, cmdResult = Except.error e →
      settleTrace ε cmdResult = [Settle.rejectedTransport e]) := by
  constructor
  · cases cmdResult with
    | error e => rfl
    | ok res =>
      rcases hr : readUInt8 res 0 with e | code <;>
        simp [settleTrace, hr] <;> split <;> rfl
  · rintro e rfl
    rfl

/-- Witness for C5: a transport failure (here the error value `()`) is the
single settle action, propagated unchanged. -/
theorem c5_witness :
    (settleTrace Unit (Except.error ())).length = 1 ∧
    settleTrace Unit (Except.error ()) = [Settle.rejectedTransport ()] :=
  ⟨(c5_single_settle Unit (Except.error ())).1,
   (c5_single_settle Unit (Except.error ())).2 () rfl⟩

/-- C6 counterexample: on the empty response buffer, `res_buf.readUInt8(0)`
throws a `RangeError`, which the `.catch` handler propagates, so the single
settle action is the range rejection and no settle action carries the
hex encoding of the response — contradicting the claim for the empty
buffer. -/
theorem c6_empty_response_no_hex :
    settleTrace Unit (Except.ok []) = [Settle.rejectedRange] ∧
    (settleTrace Unit (Except.ok [])).all
      (fun s => !(Settle.carriesHexOf [] s)) = true := by
  constructor <;> rfl

/-- C6 amended: for every non-empty response buffer whose length is not 3,
`_operateBot` rejects with a failure carrying the raw response bytes
hex-encoded; on the empty buffer the opcode read throws a `RangeError`,
which is propagated as the failure instead. -/
theorem c6_amended_nonempty_wrong_length (ε : Type) (res : List Nat)
    (hne : res ≠ []) (hlen : res.length ≠ 3) (hbytes : ∀ b ∈ res, b ≤ 255) :
    settleTrace ε (Except.ok res) =
      [Settle.rejectedProtocol
        ("The device returned an error: 0x" ++ bufToHex res)] := by
  have h0 : (0 : Nat) < res.length := List.length_pos.mpr hne
  have hread : readUInt8 res 0 = Except.ok (res.getD 0 0) := by
    simp [readUInt8, h0]
  simp [settleTrace, hread, hlen]

/-- Witness for C6's amended claim: the single-byte response `[0x01]`
(success opcode but wrong length) rejects with hex string `01`. -/
theorem c6_witness :
    settleTrace Unit (Except.ok [0x01]) =
      [Settle.rejectedProtocol "The device returned an error: 0x01"] := by
  have h := c6_amended_nonempty_wrong_length Unit [0x01] (by decide)
    (by decide) (by decide)
  rw [h]; rfl

/-- A JavaScript number as handled by `parameter-checker.ts`: a finite
value, modelled exactly as a rational (the claims involve only exact small
values), or `NaN`. -/
inductive JSNum where
  | nan : JSNum
  | fin (q : ℚ) : JSNum

/-- JS `<` on numbers: every comparison involving `NaN` is false. -/
def jsLt : JSNum → JSNum → Bool
  | JSNum.fin a, JSNum.fin b => decide (a < b)
  | _, _ => false

/-- JS `>` on numbers: every comparison involving `NaN` is false. -/
def jsGt : JSNum → JSNum → Bool
  | JSNum.fin a, JSNum.fin b => decide (b < a)
  | _, _ => false

/-- JS `value % 1 === 0`: true exactly for a finite value with zero
fractional part (`NaN % 1` is `NaN`, which is not `=== 0`). -/
def jsModOneIsZero : JSNum → Bool
  | JSNum.fin q => q.den == 1
  | JSNum.nan => false

/-- JS strict equality `===` on numbers: `NaN === NaN` is false. -/
def jsNumStrictEq : JSNum → JSNum → Bool
  | JSNum.fin a, JSNum.fin b => a == b
  | _, _ => false

/-- A JavaScript value as seen by the parameter checker. -/
inductive JSVal where
  | undefined : JSVal
  | null : JSVal
  | bool (b : Bool) : JSVal
  | num (x : JSNum) : JSVal
  | str (s : String) : JSVal
  | arr (elems : List JSVal) : JSVal
  | obj (fields : List (String × JSVal)) : JSVal

/-- JS strict equality `===` as used by `Array.prototype.indexOf`.
Arrays and objects compare by reference; an enum literal and a checked
value are distinct references, so they compare unequal here. -/
def jsValStrictEq : JSVal → JSVal → Bool
  | JSVal.undefined, JSVal.undefined => true
  | JSVal.null, JSVal.null => true
  | JSVal.bool a, JSVal.bool b => a == b
  | JSVal.num a, JSVal.num b => jsNumStrictEq a b
  | JSVal.str a, JSVal.str b => a == b
  | _, _ => false

/-- JS truthiness (`!v` negates this): `undefined`, `null`, `false`, `0`,
`NaN` and the empty string are falsy; every other value is truthy. -/
def truthy : JSVal → Bool
  | JSVal.undefined => false
  | JSVal.null => false
  | JSVal.bool b => b
  | JSVal.num JSNum.nan => false
  | JSVal.num (JSNum.fin q) => q != 0
  | JSVal.str s => s != ""
  | JSVal.arr _ => true
  | JSVal.obj _ => true

/-- Whether a JS value is a non-null, non-array object (the success
condition of `ParameterChecker.isObject`). -/
def isObjectVal : JSVal → Bool
  | JSVal.obj _ => true
  | _ => false

/-- Model of `obj[name]`: property lookup on an object, `undefined` when the key is
absent (`check` only reads properties of a value that passed
`isObject`). -/
def getProp : JSVal → String → JSVal
  | JSVal.obj fields, name =>
    match fields.find? (fun p => p.1 == name) with
    | some p => p.2
    | none => JSVal.undefined
  | _, _ => JSVal.undefined

/-- The validation error recorded in the checker's static `error` field.
The presentation-only `message` string is not modelled; the machine-
readable `code` and the field `name` attached by `check` are. -/
structure Err where
  code : String
  name : Option String := none
deriving DecidableEq, Repr

/-- One validation rule (`Rule` in `parameter-checker.ts`).  `min`, `max`,
`minBytes`, `maxBytes` and `enum` hold arbitrary JS values because the
checker ignores them unless they have the expected runtime type;
`pattern` models a `RegExp` by its `test` predicate; `type` is the
declared type string, `none` when absent. -/
structure Rule where
  required : Bool := false
  min : Option JSVal := none
  max : Option JSVal := none
  minBytes : Option JSVal := none
  maxBytes : Option JSVal := none
  pattern : Option (String → Bool) := none
  enum : Option JSVal := none
  type : Option String := none

/-- Model of `ParameterChecker.isSpecified`: `value === void 0 ? false : true`. -/
def isSpecified : JSVal → Bool
  | JSVal.undefined => false
  | _ => true

/-- The `min` bound check of `isFloat` fails: `typeof rule.min` is
`number` (so non-numeric bounds are ignored) and `value < rule.min`. -/
def minCheckFails (rule : Rule) (x : JSNum) : Bool :=
  match rule.min with
  | some (JSVal.num m) => jsLt x m
  | _ => false

/-- The `max` bound check of `isFloat` fails: `typeof rule.max` is
`number` and `value > rule.max`. -/
def maxCheckFails (rule : Rule) (x : JSNum) : Bool :=
  match rule.max with
  | some (JSVal.num m) => jsGt x m
  | _ => false

/-- The `enum` check fails: `rule.enum` is a non-empty array and
`rule.enum.indexOf(value) === -1`. -/
def enumCheckFails (rule : Rule) (v : JSVal) : Bool :=
  match rule.enum with
  | some (JSVal.arr es) => !es.isEmpty && !(es.any (fun e => jsValStrictEq e v))
  | _ => false

/-- The `pattern` check of `isString` fails: `rule.pattern` is a `RegExp`
and `rule.pattern.test(value)` is false. -/
def patternCheckFails (rule : Rule) (s : String) : Bool :=
  match rule.pattern with
  | some test => !(test s)
  | none => false

/-- A length bound of `isArray`/`isString` fails low: the bound is
number-typed and `len < bound` (comparisons with `NaN` are false). -/
def lenBelowMin (len : Nat) (bound : Option JSVal) : Bool :=
  match bound with
  | some (JSVal.num (JSNum.fin m)) => decide ((len : ℚ) < m)
  | _ => false

/-- A length bound of `isArray`/`isString` fails high: the bound is
number-typed and `len > bound`. -/
def lenAboveMax (len : Nat) (bound : Option JSVal) : Bool :=
  match bound with
  | some (JSVal.num (JSNum.fin m)) => decide (m < (len : ℚ))
  | _ => false

/-- Model of `ParameterChecker.isFloat(value, rule, name)`.  The checker methods
mutate the static `error` field; this is modelled by threading the
field's value explicitly: each method takes the field's value before the
call and returns `(its boolean result, the field's value afterwards)`.
`isFloat` is the one checker that does not reset the field on entry (its
first statement only reads the `error` getter); the `name` parameter
appears only in the unmodelled message strings. -/
def isFloat (err : Option Err) (value : JSVal) (rule : Rule)
    (_name : String) : Bool × Option Err :=
  if !rule.required && !(isSpecified value) then (true, err)
  else
    match value with
    | JSVal.num x =>
      if minCheckFails rule x then (false, some { code := "VALUE_UNDERFLOW" })
      else if maxCheckFails rule x then (false, some { code := "VALUE_OVERFLOW" })
      else if enumCheckFails rule (JSVal.num x) then
        (false, some { code := "ENUM_UNMATCH" })
      else (true, err)
    | _ => (false, some { code := "TYPE_INVALID" })

/-- Model of `ParameterChecker.isInteger(value, rule, name)`: resets the error
field, defers to `isFloat` (called without a name, hence with the default
parameter name), then requires `value % 1 === 0`.  The non-number arm of
the inner match is unreachable: `isFloat` only accepts a specified value
when it is a number. -/
def isInteger (_err : Option Err) (value : JSVal) (rule : Rule)
    (_name : String) : Bool × Option Err :=
  if !rule.required && !(isSpecified value) then (true, none)
  else
    match isFloat none value rule "value" with
    | (true, err1) =>
      match value with
      | JSVal.num x =>
        if jsModOneIsZero x then (true, err1)
        else (false, some { code := "TYPE_INVALID" })
      | _ => (false, some { code := "TYPE_INVALID" })
    | (false, err1) => (false, err1)

/-- Model of `ParameterChecker.isBoolean(value, rule, name)`. -/
def isBoolean (_err : Option Err) (value : JSVal) (rule : Rule)
    (_name : String) : Bool × Option Err :=
  if !rule.required && !(isSpecified value) then (true, none)
  else
    match value with
    | JSVal.bool _ => (true, none)
    | _ => (false, some { code := "TYPE_INVALID" })

/-- Model of `ParameterChecker.isObject(value, rule, name)`: a non-null, non-array
structured value (`typeof value === object`, not `null`, not an
array). -/
def isObject (_err : Option Err) (value : JSVal) (rule : Rule)
    (_name : String) : Bool × Option Err :=
  if !rule.required && !(isSpecified value) then (true, none)
  else
    match value with
    | JSVal.obj _ => (true, none)
    | _ => (false, some { code := "TYPE_INVALID" })

/-- Model of `ParameterChecker.isArray(value, rule, name)`: element-count bounds
via `min`/`max`. -/
def isArray (_err : Option Err) (value : JSVal) (rule : Rule)
    (_name : String) : Bool × Option Err :=
  if !rule.required && !(isSpecified value) then (true, none)
  else
    match value with
    | JSVal.arr es =>
      if lenBelowMin es.length rule.min then
        (false, some { code := "LENGTH_UNDERFLOW" })
      else if lenAboveMax es.length rule.max then
        (false, some { code := "LENGTH_OVERFLOW" })
      else (true, none)
    | _ => (false, some { code := "TYPE_INVALID" })

/-- Model of `ParameterChecker.isString(value, rule, name)`: character-length
bounds via `min`/`max` (JS counts UTF-16 units; the model counts code
points, which agree on the values the claims involve), UTF-8 byte-length
bounds via `minBytes`/`maxBytes` (`Buffer.from(value, utf8).length`),
then pattern, then enum. -/
def isString (_err : Option Err) (value : JSVal) (rule : Rule)
    (_name : String) : Bool × Option Err :=
  if !rule.required && !(isSpecified value) then (true, none)
  else
    match value with
    | JSVal.str s =>
      if lenBelowMin s.length rule.min then
        (false, some { code := "LENGTH_UNDERFLOW" })
      else if lenAboveMax s.length rule.max then
        (false, some { code := "LENGTH_OVERFLOW" })
      else if lenBelowMin s.utf8ByteSize rule.minBytes then
        (false, some { code := "LENGTH_UNDERFLOW" })
      else if lenAboveMax s.utf8ByteSize rule.maxBytes then
        (false, some { code := "LENGTH_OVERFLOW" })
      else if patternCheckFails rule s then
        (false, some { code := "PATTERN_UNMATCH" })
      else if enumCheckFails rule (JSVal.str s) then
        (false, some { code := "ENUM_UNMATCH" })
      else (true, none)
    | _ => (false, some { code := "TYPE_INVALID" })

/-- The type dispatch of `check`'s field loop; an unknown (or absent)
declared type is a `TYPE_UNKNOWN` failure. -/
def dispatchType (err : Option Err) (v : JSVal) (rule : Rule)
    (name : String) : Bool × Option Err :=
  match rule.type with
  | some "float" => isFloat err v rule name
  | some "integer" => isInteger err v rule name
  | some "boolean" => isBoolean err v rule name
  | some "array" => isArray err v rule name
  | some "object" => isObject err v rule name
  | some "string" => isString err v rule name
  | _ => (false, some { code := "TYPE_UNKNOWN" })

/-- The assignment `this.error.name = name`, attaching the field name after a failed
field check (the error is always set when a check fails, so the `none`
arm is unreachable). -/
def setErrName (err : Option Err) (name : String) : Option Err :=
  match err with
  | some e => some { e with name := some name }
  | none => none

/-- The field loop of `ParameterChecker.check`: declared fields in order,
an absent field succeeds unless marked required (breaking before the name
is attached), otherwise the type dispatch runs and the loop stops at the
first failure, attaching the field name to the recorded error. -/
def checkFields (err : Option Err) (obj : JSVal) :
    List (String × Rule) → Bool × Option Err
  | [] => (true, err)
  | (name, rule) :: rest =>
    let v := getProp obj name
    if !(isSpecified v) then
      if rule.required then (false, some { code := "MISSING_REQUIRED" })
      else checkFields err obj rest
    else
      match dispatchType err v rule name with
      | (true, err1) => checkFields err1 obj rest
      | (false, err1) => (false, setErrName err1 name)

/-- Model of `ParameterChecker.check(obj, rules, required)`, with the static
`error` field threaded as explicit state (`err` is its value before the
call, the second component its value after).  The source's nested
`if (required) { if (!isSpecified) fail } else { if (!obj) return true }`
is flattened into the equivalent two leading conditions; note the second
is JS truthiness (`!obj`), not `isSpecified`.  A failed `isObject` on the
whole argument is reported as `MISSING_REQUIRED`. -/
def check (err : Option Err) (obj : JSVal) (rules : List (String × Rule))
    (required : Bool) : Bool × Option Err :=
  if required && !(isSpecified obj) then
    (false, some { code := "MISSING_REQUIRED" })
  else if !required && !(truthy obj) then
    (true, err)
  else
    match isObject err obj {} "value" with
    | (true, err1) => checkFields err1 obj rules
    | (false, _) => (false, some { code := "MISSING_REQUIRED" })

/-- A non-object specified value fails `isObject` with `TYPE_INVALID`. -/
theorem isObject_of_not_object (err : Option Err) (obj : JSVal)
    (name : String) (h1 : isSpecified obj = true)
    (h2 : isObjectVal obj = false) :
    isObject err obj {} name = (false, some { code := "TYPE_INVALID" }) := by
  cases obj <;> simp_all [isObject, isObjectVal, isSpecified]

/-- C7 counterexample: with `required = false`, `check` on the present
non-object value `null` returns `true` — the falsy test `!obj` treats
`null` (like `0` and the empty string) as an absent argument —
contradicting the claim that every present non-object input is
rejected. -/
theorem c7_check_null_returns_true :
    check none JSVal.null [] false = (true, none) := rfl

/-- C7 amended: when the object is required, `check` rejects every
specified non-object input (including `null`, `0` and the empty string);
when it is not required, `check` returns `true` without evaluating any
rule exactly on falsy inputs — which include `null`, `0` and the empty
string, not only the absent object — and rejects every truthy non-object
input. -/
theorem c7_amended_check_nonobject (err : Option Err) (obj : JSVal)
    (rules : List (String × Rule)) :
    (isSpecified obj = true → isObjectVal obj = false →
      (check err obj rules true).1 = false) ∧
    (truthy obj = false → check err obj rules false = (true, err)) ∧
    (truthy obj = true → isObjectVal obj = false →
      (check err obj rules false).1 = false) := by
  refine ⟨fun h1 h2 => ?_, fun h1 => ?_, fun h1 h2 => ?_⟩
  · have hio := isObject_of_not_object err obj "value" h1 h2
    simp [check, h1, hio]
  · simp [check, h1]
  · have hio := isObject_of_not_object err obj "value"
      (by cases obj <;> simp_all [truthy, isSpecified]) h2
    simp [check, h1, hio]

/-- Witness for C7's amended claim at the empty string: rejected when the
argument is required, trivially accepted (no rule evaluated, error field
untouched) when it is not. -/
theorem c7_witness :
    (check none (JSVal.str "") [] true).1 = false ∧
    check none (JSVal.str "") [] false = (true, none) :=
  ⟨(c7_amended_check_nonobject none (JSVal.str "") []).1 (by decide)
      (by decide),
   (c7_amended_check_nonobject none (JSVal.str "") []).2.1 (by decide)⟩

/-- C8: `isInteger` accepts a number-typed value exactly when `isFloat`
(the number type check with the `min`/`max`/`enum` rule checks) accepts
it and the value's fractional remainder is zero; when the float checks
pass but the remainder is non-zero it rejects with code `TYPE_INVALID`. -/
theorem c8_isInteger_fractional (err : Option Err) (x : JSNum)
    (rule : Rule) (name : String) :
    ((isInteger err (JSVal.num x) rule name).1 =
      ((isFloat none (JSVal.num x) rule "value").1 && jsModOneIsZero x)) ∧
    ((isFloat none (JSVal.num x) rule "value").1 = true →
      jsModOneIsZero x = false →
      isInteger err (JSVal.num x) rule name =
        (false, some { code := "TYPE_INVALID" })) := by
  rcases hf : isFloat none (JSVal.num x) rule "value" with ⟨ok, err1⟩
  cases ok
  · constructor
    · simp [isInteger, hf, isSpecified]
    · intro h1 h2
      simp_all
  · constructor
    · cases h : jsModOneIsZero x <;> simp [isInteger, hf, isSpecified, h]
    · intro h1 h2
      simp [isInteger, hf, isSpecified, h2]

/-- Witness for C8: under the same integer rule, `2.0` is accepted and
`2.5` is rejected with code `TYPE_INVALID` (`2.5` is built as the reduced
fraction `5/2` directly, so its evaluation is definitional). -/
theorem c8_witness :
    (isInteger none (JSVal.num (JSNum.fin 2))
      { type := some "integer" } "level").1 = true ∧
    isInteger none (JSVal.num (JSNum.fin ⟨5, 2, by norm_num, by norm_num⟩))
      { type := some "integer" } "level" =
      (false, some { code := "TYPE_INVALID" }) := by
  constructor
  · rw [(c8_isInteger_fractional none (JSNum.fin 2)
      { type := some "integer" } "level").1]
    rfl
  · exact (c8_isInteger_fractional none
      (JSNum.fin ⟨5, 2, by norm_num, by norm_num⟩)
      { type := some "integer" } "level").2 rfl rfl

/-- C9 counterexample: `check` is not stateless — it writes the static
class-level `error` field shared across calls and callers.  Called with a
clear error field and the truthy non-object argument `"x"`, it leaves a
`MISSING_REQUIRED` error recorded in the field after returning. -/
theorem c9_check_writes_shared_error :
    (check none (JSVal.str "x") [] false).2 =
      some { code := "MISSING_REQUIRED", name := none } := rfl

/-- C9 amended: the boolean verdict of `check` is computed solely from its
arguments `(obj, rules, required)` — it does not depend on the prior
contents of the shared static `error` field — although the call does
overwrite that field rather than being stateless. -/
theorem c9_check_verdict_pure (e1 e2 : Option Err) (obj : JSVal)
    (rules : List (String × Rule)) (required : Bool) :
    (check e1 obj rules required).1 = (check e2 obj rules required).1 := by
  unfold check
  rw [show isObject e1 obj {} "value" = isObject e2 obj {} "value" from rfl]
  split
  · rfl
  · split
    · rfl
    · rfl

/-- C10: `isFloat` accepts `NaN` under a float rule with numeric `min`
and `max` bounds: `NaN` passes the number type check and both bound
comparisons (every JS comparison involving `NaN` is false), so a `NaN`
input validates as a float despite the declared bounds, leaving the error
field untouched. -/
theorem c10_isFloat_nan_accepted (err : Option Err) (mn mx : ℚ)
    (name : String) :
    isFloat err (JSVal.num JSNum.nan)
      { type := some "float"
        min := some (JSVal.num (JSNum.fin mn))
        max := some (JSVal.num (JSNum.fin mx)) } name = (true, err) := rfl
